import Mathlib

/-!
Verification of the Xero bank-transaction sync program (src/main.py) against
its natural-language specification.  The Python source is shallowly embedded:
pure helpers become Lean functions, the database and network become explicit
state passing plus per-call outcome oracles, Python exceptions become
`Except PyExn`.  Monetary values are modelled as exact integers.
-/

deriving instance DecidableEq for Except

namespace SyncBank

/-- Python exceptions that the program can raise or observe. -/
inductive PyExn where
  /-- `ValueError` (e.g. raised by `datetime.fromisoformat` on malformed input,
  or by `datetime.fromtimestamp` when the year falls outside 1..9999). -/
  | valueError
  /-- `requests.exceptions.RequestException` from any HTTP call. -/
  | requestError
  /-- `json.JSONDecodeError` from `json.loads`. -/
  | jsonError
  /-- `mysql.connector.Error` with its MySQL error number. -/
  | dbError (errno : Nat)
  /-- plain `Exception(...)`, e.g. the no-Xero-connections error. -/
  | generic
deriving DecidableEq

/-- A calendar date, the result of Python `datetime.date()`. -/
structure CalDate where
  year : Int
  month : Nat
  day : Nat
deriving DecidableEq

/-- Numeric value of a decimal digit character. -/
def digitVal (c : Char) : Nat := c.toNat - 48

/-- Decimal value of a digit run (most significant first). -/
def digitsToNat (l : List Char) : Nat :=
  l.foldl (fun acc c => 10 * acc + digitVal c) 0

/-- `startsWithChars p l` holds when `p` is an initial segment of `l`
(models Python `str.startswith` on the underlying characters). -/
def startsWithChars : List Char → List Char → Bool
  | [], _ => true
  | _ :: _, [] => false
  | p :: ps, c :: cs => p = c && startsWithChars ps cs

/-- Models Python `str.endswith` via the reversed character lists. -/
def endsWithChars (p l : List Char) : Bool :=
  startsWithChars p.reverse l.reverse

/-- Gregorian leap-year test, as used by Python `datetime`. -/
def isLeapYear (y : Int) : Bool :=
  (y % 4 = 0 && y % 100 != 0) || y % 400 = 0

/-- Number of days in a month, as validated by Python `datetime`. -/
def daysInMonth (y : Int) (m : Nat) : Nat :=
  if m = 2 then (if isLeapYear y then 29 else 28)
  else if m = 4 || m = 6 || m = 9 || m = 11 then 30
  else 31

/-- Time-zone suffix accepted by `datetime.fromisoformat`:
`±HH:MM`, optionally `:SS`, optionally a 6-digit fraction. -/
def validTz : List Char → Bool
  | sign :: h1 :: h2 :: ':' :: m1 :: m2 :: rest =>
    (sign = '+' || sign = '-') && h1.isDigit && h2.isDigit &&
      m1.isDigit && m2.isDigit &&
      (match rest with
       | [] => true
       | ':' :: s1 :: s2 :: rest2 =>
         s1.isDigit && s2.isDigit &&
           (rest2 = [] ||
             (rest2.length = 7 && firstDot rest2 &&
               (rest2.drop 1).all (fun c => c.isDigit)))
       | _ => false)
  | _ => false
where
  /-- whether a character list starts with a dot -/
  firstDot : List Char → Bool
    | '.' :: _ => true
    | _ => false

/-- Fractional-seconds suffix (3 or 6 digits) optionally followed by a
time-zone suffix, as accepted by `datetime.fromisoformat`. -/
def validFracTz (l : List Char) : Bool :=
  let ds := l.takeWhile (fun c => c.isDigit)
  let rest := l.drop ds.length
  (ds.length = 3 || ds.length = 6) && (rest = [] || validTz rest)

/-- Time component accepted by `datetime.fromisoformat`:
`HH[:MM[:SS[.fff[fff]]]]` with an optional time-zone suffix. -/
def validTime : List Char → Bool
  | h1 :: h2 :: rest =>
    h1.isDigit && h2.isDigit && (10 * digitVal h1 + digitVal h2 < 24) &&
      (match rest with
       | [] => true
       | ':' :: m1 :: m2 :: rest2 =>
         m1.isDigit && m2.isDigit && (10 * digitVal m1 + digitVal m2 < 60) &&
           (match rest2 with
            | [] => true
            | ':' :: s1 :: s2 :: rest3 =>
              s1.isDigit && s2.isDigit && (10 * digitVal s1 + digitVal s2 < 60) &&
                (match rest3 with
                 | [] => true
                 | '.' :: fr => validFracTz fr
                 | tz => validTz tz)
            | tz => validTz tz)
       | tz => validTz tz)
  | _ => false

/-- Models CPython `datetime.fromisoformat(s).date()` (standard-library code
called from src/main.py, not part of this repository): the input must be
`YYYY-MM-DD`, optionally followed by a single separator character and a valid
time component; the calendar fields are range-checked exactly as `datetime`
does (year 1..9999, month 1..12, day 1..days-in-month).  Any malformed input
yields `none`, which the caller turns into a raised `ValueError`.  Only the
date part is returned since the caller immediately applies `.date()`. -/
def fromisoformat_date (l : List Char) : Option CalDate :=
  match l with
  | y1 :: y2 :: y3 :: y4 :: s1 :: m1 :: m2 :: s2 :: d1 :: d2 :: rest =>
    if y1.isDigit && y2.isDigit && y3.isDigit && y4.isDigit && s1 = '-' &&
       m1.isDigit && m2.isDigit && s2 = '-' && d1.isDigit && d2.isDigit then
      let y : Nat :=
        1000 * digitVal y1 + 100 * digitVal y2 + 10 * digitVal y3 + digitVal y4
      let m : Nat := 10 * digitVal m1 + digitVal m2
      let d : Nat := 10 * digitVal d1 + digitVal d2
      if 1 ≤ y && 1 ≤ m && m ≤ 12 && 1 ≤ d && d ≤ daysInMonth (y : Int) m &&
         (match rest with
          | [] => true
          | _sep :: timeChars => validTime timeChars) then
        some { year := (y : Int), month := m, day := d }
      else none
    else none
  | _ => none

/-- Civil-from-days conversion (proleptic Gregorian): calendar date of
`z` days after 1970-01-01.  All uses in this development have `z ≥ 0`,
where every intermediate quantity is non-negative, so the rounding
convention of integer division is immaterial. -/
def civilFromDays (z0 : Int) : CalDate :=
  let z := z0 + 719468
  let era : Int := (if 0 ≤ z then z else z - 146096) / 146097
  let doe : Int := z - era * 146097
  let yoe : Int := (doe - doe / 1460 + doe / 36524 - doe / 146096) / 365
  let y : Int := yoe + era * 400
  let doy : Int := doe - (365 * yoe + yoe / 4 - yoe / 100)
  let mp : Int := (5 * doy + 2) / 153
  let d : Int := doy - (153 * mp + 2) / 5 + 1
  let m : Int := mp + (if mp < 10 then 3 else -9)
  { year := y + (if m ≤ 2 then 1 else 0), month := m.toNat, day := d.toNat }

/-- Models CPython `datetime.fromtimestamp(sec, tz=timezone.utc).date()` for a
non-negative whole-second timestamp (standard-library code called from
src/main.py): the UTC calendar date of the instant, failing with `ValueError`
when the year exceeds `datetime.MAXYEAR = 9999`. -/
def fromtimestamp_utc_date (sec : Nat) : Except PyExn CalDate :=
  let d := civilFromDays ((sec : Int) / 86400)
  if d.year ≤ 9999 then Except.ok d else Except.error PyExn.valueError

/-- whether the head of a character list is a decimal digit -/
def firstIsDigit : List Char → Bool
  | d :: _ => d.isDigit
  | [] => false

/-- Models `re.search(r'/Date\((\d+)', s)`: scan left-to-right for the first
occurrence of the literal `/Date(` followed by at least one digit, and return
the maximal digit run after it (the capture group). -/
def findDateDigits : List Char → Option (List Char)
  | [] => none
  | c :: rest =>
    if c = '/' && startsWithChars ['D', 'a', 't', 'e', '('] rest &&
       firstIsDigit (rest.drop 5) then
      some (List.takeWhile (fun ch => ch.isDigit) (rest.drop 5))
    else findDateDigits rest

/-- Models Python `date_string.replace('T', ' ')`: for a one-character
pattern, `str.replace` is exactly a per-character substitution. -/
def replaceTWithSpace (l : List Char) : List Char :=
  l.map (fun c => if c = 'T' then ' ' else c)

/-- Embedding of `parse_xero_date` (src/main.py lines 26-42).  The `Option
String` argument models `txn.get('DateString')`; `none` and `""` are both
falsy in Python.  A `.error` result is an exception escaping the function. -/
def parse_xero_date (date_string : Option String) : Except PyExn (Option CalDate) :=
  match date_string with
  | none => Except.ok none
  | some s =>
    let cs := s.toList
    if cs.isEmpty then Except.ok none
    else if cs.any (fun c => c = 'T') then
      match fromisoformat_date (replaceTWithSpace cs) with
      | some d => Except.ok (some d)
      | none => Except.error PyExn.valueError
    else if startsWithChars ['/', 'D', 'a', 't', 'e', '('] cs &&
            endsWithChars [')', '/'] cs then
      match findDateDigits cs with
      | some digits =>
        match fromtimestamp_utc_date (digitsToNat digits / 1000) with
        | Except.ok d => Except.ok (some d)
        | Except.error e => Except.error e
      | none => Except.ok none
    else Except.ok none

/-- A remote bank transaction as fetched from the provider; every field the
source reads via `txn.get(...)` is optional (JSON keys may be absent).
The Python key `Type` is spelled `ttype` because `Type` is reserved in Lean. -/
structure Contact where
  ContactID : Option String
  Name : Option String
deriving DecidableEq

/-- Nested `BankAccount` object of a remote transaction. -/
structure BankAccount where
  AccountID : Option String
  Code : Option String
  Name : Option String
deriving DecidableEq

/-- Remote transaction record (input, not owned by this program). -/
structure RemoteTxn where
  BankTransactionID : Option String
  ttype : Option String
  Total : Option Int
  SubTotal : Option Int
  TotalTax : Option Int
  CurrencyCode : Option String
  DateString : Option String
  Date : Option String
  Narration : Option String
  Reference : Option String
  Status : Option String
  LineAmountTypes : Option String
  IsReconciled : Option Bool
  HasAttachments : Option Bool
  UpdatedDateUTC : Option String
  Contact : Option Contact
  BankAccount : Option BankAccount
deriving DecidableEq

/-- Embedding of `calculate_transaction_amount` (src/main.py lines 46-57):
`txn.get('Total', 0)` and `txn.get('Type', '')` with the SPEND/RECEIVE
sign convention. -/
def calculate_transaction_amount (transaction_data : RemoteTxn) : Int :=
  let total := transaction_data.Total.getD 0
  let transaction_type := transaction_data.ttype.getD ("")
  if transaction_type = ("SPEND") then -(abs total)
  else if transaction_type = ("RECEIVE") then abs total
  else total

/-- One row of the `bank_transactions` table, with the columns in the INSERT
of src/main.py lines 138-167.  `created_at` is the `datetime.now(timezone.utc)`
string supplied by the execution environment. -/
structure Row where
  id : String
  tenant_id : Nat
  customer_id : Nat
  transaction_id : Option String
  bank_account_id : Option String
  bank_account_code : Option String
  bank_account_name : Option String
  transaction_date : Option CalDate
  amount : Int
  sub_total : Option Int
  total_tax : Option Int
  total : Option Int
  currency_code : String
  description : String
  reference : String
  transaction_type : Option String
  status : Option String
  line_amount_types : Option String
  contact_id : Option String
  contact_name : Option String
  is_reconciled : Bool
  has_attachments : Bool
  raw_date_string : Option String
  raw_date_timestamp : Option String
  updated_date_utc : Option String
  imported_from : String
  reconciliation_status : String
  created_at : String
deriving DecidableEq

/-- Modelled from the spec: the uniqueness key of `bank_transactions` used by
`INSERT IGNORE`.  The table DDL is not part of src/; §3 of the spec states the
invariant "the triple (tenant_id, customer_id, transaction_id) is unique —
enforced as an insert-time idempotency check". -/
def rowKey (r : Row) : Nat × Nat × Option String :=
  (r.tenant_id, r.customer_id, r.transaction_id)

/-- Whether some row of `rows` already carries key `k`. -/
def hasKey (rows : List Row) (k : Nat × Nat × Option String) : Bool :=
  rows.any (fun q => rowKey q = k)

/-- Embedding of `insert_transaction_record` (src/main.py lines 127-167) up to
the `cursor.execute` call: builds the row handed to the INSERT statement.
`newId` is the `str(uuid4())` value and `created_at` the current UTC time,
both supplied by the environment.  The only exception this code itself can
raise is the `ValueError` escaping `parse_xero_date`. -/
def insert_transaction_record (newId created_at : String) (txn : RemoteTxn)
    (tenant_id customer_id : Nat) : Except PyExn Row :=
  let bank_account := txn.BankAccount.getD ⟨none, none, none⟩
  let contact := txn.Contact.getD ⟨none, none⟩
  match parse_xero_date txn.DateString with
  | Except.error e => Except.error e
  | Except.ok transaction_date =>
    Except.ok {
      id := newId
      tenant_id := tenant_id
      customer_id := customer_id
      transaction_id := txn.BankTransactionID
      bank_account_id := bank_account.AccountID
      bank_account_code := bank_account.Code
      bank_account_name := bank_account.Name
      transaction_date := transaction_date
      amount := calculate_transaction_amount txn
      sub_total := txn.SubTotal
      total_tax := txn.TotalTax
      total := txn.Total
      currency_code := txn.CurrencyCode.getD ("AUD")
      description := txn.Narration.getD ("")
      reference := txn.Reference.getD ("")
      transaction_type := txn.ttype
      status := txn.Status
      line_amount_types := txn.LineAmountTypes
      contact_id := contact.ContactID
      contact_name := contact.Name
      is_reconciled := txn.IsReconciled.getD false
      has_attachments := txn.HasAttachments.getD false
      raw_date_string := txn.DateString
      raw_date_timestamp := txn.Date
      updated_date_utc := txn.UpdatedDateUTC
      imported_from := "XERO"
      reconciliation_status := "UNMATCHED"
      created_at := created_at
    }

/-- Outcome of one `cursor.execute` as decided by the database engine
(connectivity, locks, ...).  With MySQL's default configuration the
`INSERT IGNORE` statement never raises for a duplicate key — the duplicate
is downgraded to a warning — so a duplicate shows up as `.ok` with no row
added, not as `.err 1062`. -/
inductive DbOutcome where
  | ok
  | err (errno : Nat)
deriving DecidableEq

/-- Per-customer OAuth credential set (`api_credentials` JSON blob). -/
structure Creds where
  refresh_token : String
  client_id : String
  client_secret : String
deriving DecidableEq

/-- One customer row as returned by `get_customers_by_tenant`:
`api_credentials` carries the outcome of `json.loads` on the stored blob. -/
structure Customer where
  customer_id : Nat
  api_credentials : Except PyExn Creds
deriving DecidableEq

/-- The execution environment of one customer's sync cycle: outcomes of the
network calls, the per-statement database engine outcomes, the generated
UUIDs, the current time and the outcome of the credential write-back. -/
structure CustomerEnv where
  /-- outcome of `refresh_access_token`: `(access_token, new_refresh_token)` -/
  token : Except PyExn (String × String)
  /-- outcome of `get_xero_tenant_id` (HTTP failure or the
  no-connections `Exception` both appear as `.error`) -/
  tenantResolve : Except PyExn String
  /-- outcome of `fetch_xero_transactions` -/
  fetch : Except PyExn (List RemoteTxn)
  /-- engine outcome of the i-th `cursor.execute` INSERT of this cycle -/
  dbFail : Nat → DbOutcome
  /-- the `str(uuid4())` generated for the i-th INSERT -/
  uuids : Nat → String
  /-- the `datetime.now(timezone.utc)` timestamp -/
  now : String
  /-- outcome of `update_refresh_token_in_db` (its own connection/commit) -/
  updateOutcome : Except PyExn Unit

/-- Database state owned by one tenant thread: rows already committed, rows
executed on the connection but not yet committed (autocommit is off in
mysql-connector), and the `customer_accounting_settings` credential table. -/
structure DbState where
  committed : List Row
  pending : List Row
  credsDB : List (Nat × Creds)
deriving DecidableEq

/-- Observable events of a customer cycle, in program order. -/
inductive Event where
  /-- `conn.commit()` after the insert loop (src/main.py line 224) -/
  | commit (customer_id : Nat)
  /-- the "N transactions inserted" report (line 226) -/
  | customerDone (customer_id : Nat) (inserted_count : Nat)
  /-- `update_refresh_token_in_db` succeeded (lines 229-231) -/
  | tokenUpdate (customer_id : Nat) (new_refresh_token : String)
  /-- an exception reached one of the per-customer handlers (lines 233-238) -/
  | customerFailed (customer_id : Nat) (e : PyExn)
deriving DecidableEq

/-- Embedding of the per-transaction loop (src/main.py lines 213-222).
Arguments: committed rows visible to the connection, ids of the owning
tenant/customer, remaining transactions, index of the next transaction,
rows pending on the connection, and the running `inserted_count`.
Returns the pending rows, the count, and `some e` when an exception other
than `mysql.connector.Error` escaped the loop (only the date `ValueError`
can).  A duplicate key under `INSERT IGNORE` is a successful execute that
adds no row, so it still increments `inserted_count`; the `errno == 1062`
handler of the source is kept but is unreachable for duplicates. -/
def insert_loop (ce : CustomerEnv) (committed : List Row)
    (tenant_id customer_id : Nat) :
    List RemoteTxn → Nat → List Row → Nat → List Row × Nat × Option PyExn
  | [], _, pending, count => (pending, count, none)
  | txn :: rest, i, pending, count =>
    match insert_transaction_record (ce.uuids i) ce.now txn tenant_id customer_id with
    | Except.error e => (pending, count, some e)
    | Except.ok r =>
      match ce.dbFail i with
      | DbOutcome.err errno =>
        if errno = 1062 then
          -- `continue`: skip the duplicate without counting it
          insert_loop ce committed tenant_id customer_id rest (i + 1) pending count
        else
          -- logged, not counted, loop continues with the next transaction
          insert_loop ce committed tenant_id customer_id rest (i + 1) pending count
      | DbOutcome.ok =>
        insert_loop ce committed tenant_id customer_id rest (i + 1)
          (if hasKey (committed ++ pending) (rowKey r) then pending
           else pending ++ [r])
          (count + 1)

/-- Embedding of `update_refresh_token_in_db` (src/main.py lines 171-181):
`JSON_SET(api_credentials, '$.refresh_token', %s) WHERE customer_id = %s`
replaces exactly the `refresh_token` path of the matching customers' blobs. -/
def update_refresh_token_in_db (db : List (Nat × Creds)) (customer_id : Nat)
    (new_refresh_token : String) : List (Nat × Creds) :=
  db.map (fun p =>
    if p.1 = customer_id then (p.1, { p.2 with refresh_token := new_refresh_token })
    else p)

/-- Embedding of the body of the per-customer `for` loop of
`process_tenant_transactions` (src/main.py lines 198-238): the five-step
pipeline with its `try`/`except` boundary.  Returns the new database state,
the events of this cycle in program order, and the contribution to
`total_transactions` (zero when the cycle failed before line 225). -/
def process_customer (ce : CustomerEnv) (tenant_id : Nat) (c : Customer)
    (st : DbState) : DbState × List Event × Nat :=
  match c.api_credentials with
  | Except.error e => (st, [Event.customerFailed c.customer_id e], 0)
  | Except.ok creds =>
    match ce.token with
    | Except.error e => (st, [Event.customerFailed c.customer_id e], 0)
    | Except.ok (_access_token, new_refresh_token) =>
      match ce.tenantResolve with
      | Except.error e => (st, [Event.customerFailed c.customer_id e], 0)
      | Except.ok _tenant_xero_id =>
        match ce.fetch with
        | Except.error e => (st, [Event.customerFailed c.customer_id e], 0)
        | Except.ok transactions =>
          match insert_loop ce st.committed tenant_id c.customer_id
              transactions 0 st.pending 0 with
          | (pending2, _, some e) =>
            -- exception escaped the loop before `conn.commit()`: the rows
            -- executed so far stay pending on the shared connection
            ({ st with pending := pending2 },
             [Event.customerFailed c.customer_id e], 0)
          | (pending2, inserted_count, none) =>
            let st2 : DbState :=
              { st with committed := st.committed ++ pending2, pending := [] }
            if creds.refresh_token = new_refresh_token then
              (st2,
               [Event.commit c.customer_id,
                Event.customerDone c.customer_id inserted_count],
               inserted_count)
            else
              match ce.updateOutcome with
              | Except.ok _ =>
                ({ st2 with credsDB := (update_refresh_token_in_db
                      st2.credsDB c.customer_id new_refresh_token) },
                 [Event.commit c.customer_id,
                  Event.customerDone c.customer_id inserted_count,
                  Event.tokenUpdate c.customer_id new_refresh_token],
                 inserted_count)
              | Except.error e =>
                (st2,
                 [Event.commit c.customer_id,
                  Event.customerDone c.customer_id inserted_count,
                  Event.customerFailed c.customer_id e],
                 inserted_count)

/-- The sequential customer loop of `process_tenant_transactions`:
customers are processed in list order on the tenant's single connection;
events are concatenated and insert counts summed. -/
def process_customers (env : Customer → CustomerEnv) (tenant_id : Nat) :
    List Customer → DbState → DbState × List Event × Nat
  | [], st => (st, [], 0)
  | c :: rest, st =>
    let out1 := process_customer (env c) tenant_id c st
    let out2 := process_customers env tenant_id rest out1.1
    (out2.1, out1.2.1 ++ out2.2.1, out1.2.2 + out2.2.2)

/-- One tenant's unit of work as launched by `main`. -/
structure TenantJob where
  tenant_id : Nat
  /-- outcome of `get_customers_by_tenant` -/
  customersResult : Except PyExn (List Customer)
  /-- outcome of `get_db_connection` for the tenant's own connection -/
  connectResult : Except PyExn Unit
  /-- per-customer execution environment -/
  env : Customer → CustomerEnv
  /-- tenant's view of the database at thread start -/
  st : DbState

/-- Embedding of `process_tenant_transactions` (src/main.py lines 185-242):
load customers (may raise), return early when there are none, open the
connection (may raise), run the customer loop, then `conn.close()`, which
discards any rows still pending without a commit. -/
def process_tenant_transactions (j : TenantJob) :
    Except PyExn (DbState × List Event × Nat) := do
  let customers ← j.customersResult
  match customers with
  | [] => Except.ok (j.st, [], 0)
  | c :: rest =>
    let _ ← j.connectResult
    let out := process_customers j.env j.tenant_id (c :: rest) j.st
    Except.ok ({ out.1 with pending := [] }, out.2.1, out.2.2)

/-- Modelled from the spec: the tenant task boundary.  The threads are run by
Python's `threading` runtime (standard-library code, not under src/); §4.7 of
the spec requires "a tenant task raising an unexpected error must not crash
the orchestrator or prevent other tenants from completing — catch-and-log at
the tenant task boundary, then continue waiting on the rest", which is what
the runtime does: an exception escaping the thread target is reported by the
threading excepthook, the thread terminates, and `join()` returns normally. -/
def threadBoundary (r : Except PyExn (DbState × List Event × Nat)) :
    Option (DbState × List Event × Nat) :=
  match r with
  | Except.ok v => some v
  | Except.error _ => none

/-- Embedding of `main` (src/main.py lines 246-271): one thread per active
tenant, all joined.  Each job carries its own connection-level state; the
per-tenant results are collected in tenant order after every join returns. -/
def main (jobs : List TenantJob) : List (Option (DbState × List Event × Nat)) :=
  jobs.map (fun j => threadBoundary (process_tenant_transactions j))

/-! ## Concrete fixtures used by witnesses and evaluations -/

/-- A SPEND transaction with `Total = 150` and no other fields. -/
def txnSpend150 : RemoteTxn :=
  { BankTransactionID := some ("TX1"), ttype := some ("SPEND"), Total := some 150,
    SubTotal := none, TotalTax := none, CurrencyCode := none, DateString := none,
    Date := none, Narration := none, Reference := none, Status := none,
    LineAmountTypes := none, IsReconciled := none, HasAttachments := none,
    UpdatedDateUTC := none, Contact := none, BankAccount := none }

/-- The row `insert_transaction_record ("u1") ("t0") txnSpend150 1 2` builds. -/
def rowSpend150 : Row :=
  { id := "u1", tenant_id := 1, customer_id := 2, transaction_id := some ("TX1"),
    bank_account_id := none, bank_account_code := none, bank_account_name := none,
    transaction_date := none, amount := -150, sub_total := none, total_tax := none,
    total := some 150, currency_code := "AUD", description := "", reference := "",
    transaction_type := some ("SPEND"), status := none, line_amount_types := none,
    contact_id := none, contact_name := none, is_reconciled := false,
    has_attachments := false, raw_date_string := none, raw_date_timestamp := none,
    updated_date_utc := none, imported_from := "XERO",
    reconciliation_status := "UNMATCHED", created_at := "t0" }

/-- Credential fixtures. -/
def credsA : Creds :=
  { refresh_token := "rtA", client_id := "cidA", client_secret := "csA" }

/-- Second credential fixture. -/
def credsB : Creds :=
  { refresh_token := "rtB", client_id := "cidB", client_secret := "csB" }

/-- A two-customer credential store. -/
def credsDB0 : List (Nat × Creds) := [(1, credsA), (2, credsB)]

/-- An environment in which every external call succeeds, the token is not
rotated relative to `credsA`, and the remote set is empty. -/
def ceOk : CustomerEnv :=
  { token := Except.ok (("acc"), ("rtA")), tenantResolve := Except.ok ("xid"),
    fetch := Except.ok [], dbFail := fun _ => DbOutcome.ok,
    uuids := fun _ => "u1", now := "t0", updateOutcome := Except.ok () }

/-- A remote transaction whose `DateString` makes `parse_xero_date` raise. -/
def txnBadDate : RemoteTxn :=
  { txnSpend150 with
    BankTransactionID := some ("TX2"),
    DateString := some ("Tgarbage") }

/-- Environment family in which customer 1's fetch returns the bad-date
transaction (so its persistence loop raises an unexpected `ValueError`) and
every other customer's cycle succeeds. -/
def envBadDateFor1 : Customer → CustomerEnv :=
  fun cu =>
    if cu.customer_id = 1 then { ceOk with fetch := Except.ok [txnBadDate] }
    else ceOk

/-- Environment whose every INSERT fails with a non-duplicate engine error. -/
def ceDbErr5 : CustomerEnv :=
  { ceOk with dbFail := fun _ => DbOutcome.err 5 }

/-- Environment with a rotated refresh token relative to `credsA`. -/
def ceRotate : CustomerEnv :=
  { ceOk with token := Except.ok (("acc"), ("rtA2")) }

/-- Empty database state. -/
def st0 : DbState := { committed := [], pending := [], credsDB := credsDB0 }

/-- Customer 1 holding `credsA`. -/
def custA : Customer := { customer_id := 1, api_credentials := Except.ok credsA }

/-- Customer 2 holding `credsB`. -/
def custB : Customer := { customer_id := 2, api_credentials := Except.ok credsB }

/-! ## Theorems -/

/-- C1: for every remote transaction carrying a `Total`, the derived signed
amount is `-abs(Total)` when `Type` is SPEND (hence never positive, and
strictly negative for both positive and negative nonzero totals),
`+abs(Total)` when `Type` is RECEIVE, and the raw `Total` unchanged for any
other `Type` value, including an absent one. -/
theorem amount_sign_law (txn : RemoteTxn) (t : Int) (h : txn.Total = some t) :
    (txn.ttype = some ("SPEND") →
      calculate_transaction_amount txn = -(abs t) ∧
      calculate_transaction_amount txn ≤ 0 ∧
      (0 < t → calculate_transaction_amount txn < 0) ∧
      (t < 0 → calculate_transaction_amount txn < 0)) ∧
    (txn.ttype = some ("RECEIVE") →
      calculate_transaction_amount txn = abs t ∧
      0 ≤ calculate_transaction_amount txn) ∧
    (∀ s, txn.ttype = some s → s ≠ ("SPEND") → s ≠ ("RECEIVE") →
      calculate_transaction_amount txn = t) ∧
    (txn.ttype = none → calculate_transaction_amount txn = t) := by
  refine ⟨?_, ?_, ?_, ?_⟩
  · intro hty
    simp only [calculate_transaction_amount, h, hty, Option.getD_some, if_pos rfl]
    refine ⟨rfl, neg_nonpos.mpr (abs_nonneg t), ?_, ?_⟩
    · intro hpos
      exact neg_neg_of_pos (abs_pos.mpr (ne_of_gt hpos))
    · intro hneg
      exact neg_neg_of_pos (abs_pos.mpr (ne_of_lt hneg))
  · intro hty
    simp only [calculate_transaction_amount, h, hty, Option.getD_some]
    constructor
    · simp
    · simp
  · intro s hty hs hr
    simp only [calculate_transaction_amount, h, hty, Option.getD_some]
    rw [if_neg hs, if_neg hr]
  · intro hty
    simp only [calculate_transaction_amount, h, hty, Option.getD_none, Option.getD_some]
    rw [if_neg (by decide), if_neg (by decide)]

/-- C1 witness: a SPEND transaction with positive `Total = 150` is stored as
the strictly negative amount `-abs 150`. -/
theorem amount_sign_law_witness :
    calculate_transaction_amount txnSpend150 = -(abs 150) ∧
    calculate_transaction_amount txnSpend150 < 0 :=
  ⟨((amount_sign_law txnSpend150 150 rfl).1 rfl).1,
   ((amount_sign_law txnSpend150 150 rfl).1 rfl).2.2.1 (by decide)⟩

/-- C3 counterexample: the input `"Tgarbage"` matches neither provider date
encoding, yet the normalizer does not return the absent-date value — the
`ValueError` raised by `datetime.fromisoformat` escapes it. -/
theorem parse_xero_date_raises_on_T :
    parse_xero_date (some ("Tgarbage")) = Except.error PyExn.valueError := by decide

/-- C3 (amended): an empty or absent input yields the explicit no-date value,
and so does any input that contains no `'T'` character and no `/Date(`-digits
pattern; no exception escapes for those inputs.  (As the counterexample
shows, an exception can escape for an input that contains `'T'` but is not a
valid ISO date-time.) -/
theorem parse_unmatched_yields_none (s : String)
    (hT : (s.toList.any fun c => c = 'T') = false)
    (hD : (startsWithChars ['/', 'D', 'a', 't', 'e', '('] s.toList &&
           endsWithChars [')', '/'] s.toList) = true →
          findDateDigits s.toList = none) :
    parse_xero_date none = Except.ok none ∧
    parse_xero_date (some ("")) = Except.ok none ∧
    parse_xero_date (some s) = Except.ok none := by
  refine ⟨rfl, by decide, ?_⟩
  have hT2 : (s.data.any fun c => decide (c = 'T')) = false := hT
  have hD2 : (startsWithChars ['/', 'D', 'a', 't', 'e', '('] s.data &&
              endsWithChars [')', '/'] s.data) = true →
             findDateDigits s.data = none := hD
  have hTm : 'T' ∉ s.data := by
    intro hm
    have hany : (s.data.any fun c => decide (c = 'T')) = true := by
      rw [List.any_eq_true]
      exact ⟨'T', hm, by simp⟩
    rw [hany] at hT2
    simp at hT2
  unfold parse_xero_date
  by_cases hd : s.data = []
  · simp [hd]
  · by_cases hw : (startsWithChars ['/', 'D', 'a', 't', 'e', '('] s.data &&
                   endsWithChars [')', '/'] s.data) = true
    · obtain ⟨h1, h2⟩ := (Bool.and_eq_true _ _).mp hw
      simp [hd, hTm, h1, h2, hD2 hw]
    · have hw2 : ¬(startsWithChars ['/', 'D', 'a', 't', 'e', '('] s.data = true ∧
                   endsWithChars [')', '/'] s.data = true) := fun hand =>
        hw ((Bool.and_eq_true _ _).mpr hand)
      simp [hd, hTm, hw2]

/-- C3 witness: the amended statement evaluated at the concrete unmatched
input `"garbage"`. -/
theorem parse_unmatched_yields_none_witness :
    parse_xero_date none = Except.ok none ∧
    parse_xero_date (some ("")) = Except.ok none ∧
    parse_xero_date (some ("garbage")) = Except.ok none :=
  parse_unmatched_yields_none ("garbage") (by decide) (by decide)

/-- C7: the ISO-like encoding `"2025-03-29T00:00:00"` and the wrapped
millisecond-timestamp encoding `"/Date(1743206400000+0000)/"` (that instant
is 2025-03-29 00:00:00 UTC) both resolve to the calendar date 2025-03-29. -/
theorem date_encodings_agree :
    parse_xero_date (some ("2025-03-29T00:00:00")) =
      Except.ok (some { year := 2025, month := 3, day := 29 }) ∧
    parse_xero_date (some ("/Date(1743206400000+0000)/")) =
      Except.ok (some { year := 2025, month := 3, day := 29 }) := by
  decide

/-- C9: the credential write-back rewrites only the `refresh_token` field of
the matching customer's blob — `client_id` and `client_secret` of that
customer are kept, and every row whose `customer_id` differs is unchanged;
no row is added or removed. -/
theorem update_refresh_token_frame (db : List (Nat × Creds)) (customer_id : Nat)
    (new_refresh_token : String) (i : Nat) (p : Nat × Creds)
    (h : db[i]? = some p) :
    (update_refresh_token_in_db db customer_id new_refresh_token).length = db.length ∧
    (p.1 ≠ customer_id →
      (update_refresh_token_in_db db customer_id new_refresh_token)[i]? = some p) ∧
    (p.1 = customer_id →
      (update_refresh_token_in_db db customer_id new_refresh_token)[i]? =
        some (p.1, { refresh_token := new_refresh_token,
                     client_id := p.2.client_id,
                     client_secret := p.2.client_secret })) := by
  unfold update_refresh_token_in_db
  refine ⟨List.length_map _ _, ?_, ?_⟩
  · intro hne
    rw [List.getElem?_map, h]
    simp [hne]
  · intro heq
    rw [List.getElem?_map, h]
    simp [heq]

/-- C9 witness: updating customer 2's token in a two-customer store keeps the
store's size and leaves customer 1's entry untouched. -/
theorem update_refresh_token_frame_witness :
    (update_refresh_token_in_db credsDB0 2 ("newTok")).length = credsDB0.length ∧
    (update_refresh_token_in_db credsDB0 2 ("newTok"))[0]? = some (1, credsA) :=
  ⟨(update_refresh_token_frame credsDB0 2 ("newTok") 0 (1, credsA) rfl).1,
   (update_refresh_token_frame credsDB0 2 ("newTok") 0 (1, credsA) rfl).2.1
     (by decide)⟩

/-- The key of a successfully built row is the (tenant, customer, external id)
triple — in particular it does not depend on the generated UUID or time. -/
theorem rowKey_insert_record {newId created_at : String} {txn : RemoteTxn}
    {tenant_id customer_id : Nat} {r : Row}
    (h : insert_transaction_record newId created_at txn tenant_id customer_id =
      Except.ok r) :
    rowKey r = (tenant_id, customer_id, txn.BankTransactionID) := by
  unfold insert_transaction_record at h
  cases hp : parse_xero_date txn.DateString with
  | error e => rw [hp] at h; cases h
  | ok d => rw [hp] at h; injection h with h; subst h; rfl

/-- Building a row succeeds only when the date parse does. -/
theorem parse_ok_of_insert_ok {newId created_at : String} {txn : RemoteTxn}
    {tenant_id customer_id : Nat} {r : Row}
    (h : insert_transaction_record newId created_at txn tenant_id customer_id =
      Except.ok r) :
    ∃ d, parse_xero_date txn.DateString = Except.ok d := by
  unfold insert_transaction_record at h
  cases hp : parse_xero_date txn.DateString with
  | error e => rw [hp] at h; cases h
  | ok d => exact ⟨d, rfl⟩

/-- Conversely, when the date parse succeeds the row build succeeds,
whatever UUID and timestamp the environment supplies. -/
theorem insert_record_ok_of_parse {newId created_at : String} {txn : RemoteTxn}
    {tenant_id customer_id : Nat} {d : Option CalDate}
    (hp : parse_xero_date txn.DateString = Except.ok d) :
    ∃ r, insert_transaction_record newId created_at txn tenant_id customer_id =
      Except.ok r ∧ rowKey r = (tenant_id, customer_id, txn.BankTransactionID) := by
  unfold insert_transaction_record
  rw [hp]
  exact ⟨_, rfl, rfl⟩

/-- `hasKey` is monotone under list inclusion. -/
theorem hasKey_mono {rows rows2 : List Row} {k : Nat × Nat × Option String}
    (hsub : ∀ q ∈ rows, q ∈ rows2) (h : hasKey rows k = true) :
    hasKey rows2 k = true := by
  unfold hasKey at h ⊢
  rw [List.any_eq_true] at h ⊢
  obtain ⟨q, hq, hk⟩ := h
  exact ⟨q, hsub q hq, hk⟩

/-- A key present in `rows` is present in `rows ++ P`. -/
theorem hasKey_append_left {rows P : List Row} {k : Nat × Nat × Option String}
    (h : hasKey rows k = true) :
    hasKey (rows ++ P) k = true :=
  hasKey_mono (fun _ hq => List.mem_append_left _ hq) h

/-- After a run of the insert loop that raised nothing, with an engine that
reported no errors, every processed transaction parses and has its key
present in the connection's view `committed ++ p`; moreover the loop never
removes pending rows. -/
theorem insert_loop_keys (ce : CustomerEnv) (committed : List Row)
    (tenant_id customer_id : Nat) (hok : ∀ j, ce.dbFail j = DbOutcome.ok) :
    ∀ (txns : List RemoteTxn) (i : Nat) (P p : List Row) (k n : Nat),
      insert_loop ce committed tenant_id customer_id txns i P k = (p, n, none) →
      (∀ q ∈ P, q ∈ p) ∧
      ∀ txn ∈ txns,
        (∃ d, parse_xero_date txn.DateString = Except.ok d) ∧
        hasKey (committed ++ p)
          (tenant_id, customer_id, txn.BankTransactionID) = true := by
  intro txns
  induction txns with
  | nil =>
    intro i P p k n h
    unfold insert_loop at h
    simp only [Prod.mk.injEq] at h
    obtain ⟨rfl, -, -⟩ := h
    exact ⟨fun q hq => hq, by simp⟩
  | cons txn rest ih =>
    intro i P p k n h
    unfold insert_loop at h
    cases hrec : insert_transaction_record (ce.uuids i) ce.now txn tenant_id
        customer_id with
    | error e =>
      rw [hrec] at h
      simp only [Prod.mk.injEq] at h
      exact absurd h.2.2 (by simp)
    | ok r =>
      rw [hrec, hok i] at h
      obtain ⟨hsub, hrest⟩ := ih (i + 1) _ p (k + 1) n h
      have hmemP2 : ∀ q ∈ P,
          q ∈ (if hasKey (committed ++ P) (rowKey r) = true then P
               else P ++ [r]) := by
        intro q hq
        by_cases hdup : hasKey (committed ++ P) (rowKey r) = true
        · rwa [if_pos hdup]
        · rw [if_neg hdup]; exact List.mem_append_left _ hq
      constructor
      · exact fun q hq => hsub q (hmemP2 q hq)
      · intro t2 ht2
        rcases List.mem_cons.mp ht2 with rfl | hmem
        · have hkeyP2 : hasKey
              (committed ++ (if hasKey (committed ++ P) (rowKey r) = true then P
                             else P ++ [r])) (rowKey r) = true := by
            by_cases hdup : hasKey (committed ++ P) (rowKey r) = true
            · rwa [if_pos hdup]
            · rw [if_neg hdup]
              unfold hasKey
              rw [List.any_eq_true]
              exact ⟨r, by simp, by simp⟩
          have hkeyp : hasKey (committed ++ p) (rowKey r) = true := by
            apply hasKey_mono ?_ hkeyP2
            intro q hq
            rcases List.mem_append.mp hq with hq1 | hq2
            · exact List.mem_append_left _ hq1
            · exact List.mem_append_right _ (hsub q hq2)
          rw [rowKey_insert_record hrec] at hkeyp
          exact ⟨parse_ok_of_insert_ok hrec, hkeyp⟩
        · exact hrest t2 hmem

/-- When every transaction's key is already present in the committed rows and
the engine reports no errors, the insert loop adds no pending row at all (it
still counts every transaction, see `duplicate_is_counted`). -/
theorem insert_loop_all_dup (ce : CustomerEnv) (committed : List Row)
    (tenant_id customer_id : Nat) (hok : ∀ j, ce.dbFail j = DbOutcome.ok) :
    ∀ (txns : List RemoteTxn) (i : Nat) (P : List Row) (k : Nat),
      (∀ txn ∈ txns,
        (∃ d, parse_xero_date txn.DateString = Except.ok d) ∧
        hasKey committed (tenant_id, customer_id, txn.BankTransactionID) = true) →
      insert_loop ce committed tenant_id customer_id txns i P k =
        (P, k + txns.length, none) := by
  intro txns
  induction txns with
  | nil => intro i P k _; unfold insert_loop; simp
  | cons txn rest ih =>
    intro i P k hall
    obtain ⟨⟨d, hp⟩, hkey⟩ := hall txn (List.mem_cons_self _ _)
    obtain ⟨r, hrec, hkr⟩ :=
      @insert_record_ok_of_parse (ce.uuids i) ce.now txn tenant_id customer_id d hp
    unfold insert_loop
    simp only [hrec, hok]
    have hdup : hasKey (committed ++ P) (rowKey r) = true := by
      rw [hkr]; exact hasKey_append_left hkey
    rw [if_pos hdup]
    rw [ih (i + 1) P (k + 1) (fun t ht => hall t (List.mem_cons_of_mem _ ht))]
    have hn : k + 1 + rest.length = k + (rest.length + 1) := by omega
    rw [List.length_cons, hn]

/-- C2: re-running the insert loop over an unchanged remote transaction set,
against the store the first run produced, inserts zero net new rows — every
attempt is a silent no-op (`INSERT IGNORE` surfaces no error) that leaves the
already-stored rows untouched: the second run ends with an empty pending set
and no exception. -/
theorem second_sync_is_noop (ce1 ce2 : CustomerEnv) (committed p : List Row)
    (tenant_id customer_id n : Nat) (txns : List RemoteTxn)
    (h1 : ∀ j, ce1.dbFail j = DbOutcome.ok)
    (h2 : ∀ j, ce2.dbFail j = DbOutcome.ok)
    (hrun : insert_loop ce1 committed tenant_id customer_id txns 0 [] 0 =
      (p, n, none)) :
    insert_loop ce2 (committed ++ p) tenant_id customer_id txns 0 [] 0 =
      ([], txns.length, none) := by
  obtain ⟨-, hkeys⟩ :=
    insert_loop_keys ce1 committed tenant_id customer_id h1 txns 0 [] p 0 n hrun
  have h := insert_loop_all_dup ce2 (committed ++ p) tenant_id customer_id h2
    txns 0 [] 0 (fun txn ht => hkeys txn ht)
  simpa using h

/-- C2 witness: a first run that inserted `rowSpend150`, then a second run
over the same one-transaction set, which adds nothing. -/
theorem second_sync_is_noop_witness :
    insert_loop ceOk ([] ++ [rowSpend150]) 1 2 [txnSpend150] 0 [] 0 =
      ([], 1, none) :=
  second_sync_is_noop ceOk ceOk [] [rowSpend150] 1 2 1 [txnSpend150]
    (fun _ => rfl) (fun _ => rfl) (by decide)

/-- C4: the code evaluated at the failing input.  With the store already
holding the row for key (1, 2, TX1) and the engine raising no error (MySQL
default: `INSERT IGNORE` downgrades the duplicate key to a warning, so the
`errno == 1062` skip branch never fires), re-processing the same transaction
reports `inserted_count = 1` even though no row was inserted — the claim says
a duplicate skip is excluded from the count.  A transaction whose INSERT
fails with a non-duplicate engine error is excluded from the count, as the
claim states. -/
theorem duplicate_is_counted :
    insert_loop ceOk [rowSpend150] 1 2 [txnSpend150] 0 [] 0 = ([], 1, none) ∧
    insert_loop ceDbErr5 [rowSpend150] 1 2 [txnSpend150] 0 [] 0 = ([], 0, none) := by
  decide

/-- A customer cycle that fails before any INSERT is executed: malformed
credential JSON, token-exchange failure, connection-resolution failure or
remote-fetch failure. -/
def EarlyFail (ce : CustomerEnv) (c : Customer) : Prop :=
  (∃ e, c.api_credentials = Except.error e) ∨
  (∃ e, ce.token = Except.error e) ∨
  (∃ e, ce.tenantResolve = Except.error e) ∨
  (∃ e, ce.fetch = Except.error e)

/-- A customer whose cycle fails early leaves the database state untouched and
contributes nothing to the tenant's total. -/
theorem process_customer_early_fail {ce : CustomerEnv} {c : Customer}
    (h : EarlyFail ce c) (tenant_id : Nat) (st : DbState) :
    (process_customer ce tenant_id c st).1 = st ∧
    (process_customer ce tenant_id c st).2.2 = 0 := by
  unfold process_customer
  rcases h with ⟨e, he⟩ | ⟨e, he⟩ | ⟨e, he⟩ | ⟨e, he⟩
  · rw [he]; exact ⟨rfl, rfl⟩
  · cases hc : c.api_credentials with
    | error e2 => exact ⟨rfl, rfl⟩
    | ok creds => rw [he]; exact ⟨rfl, rfl⟩
  · cases hc : c.api_credentials with
    | error e2 => exact ⟨rfl, rfl⟩
    | ok creds =>
      cases ht : ce.token with
      | error e2 => exact ⟨rfl, rfl⟩
      | ok pr =>
        obtain ⟨a, b⟩ := pr
        rw [he]; exact ⟨rfl, rfl⟩
  · cases hc : c.api_credentials with
    | error e2 => exact ⟨rfl, rfl⟩
    | ok creds =>
      cases ht : ce.token with
      | error e2 => exact ⟨rfl, rfl⟩
      | ok pr =>
        obtain ⟨a, b⟩ := pr
        cases hr : ce.tenantResolve with
        | error e2 => exact ⟨rfl, rfl⟩
        | ok xid => rw [he]; exact ⟨rfl, rfl⟩

/-- The rows of every customer other than `cid`: the view of the store a
failing customer `cid` must leave intact. -/
def custFilter (cid : Nat) (rows : List Row) : List Row :=
  rows.filter (fun r => r.customer_id != cid)

/-- Two connection states that agree on everything outside customer `cid`'s
own rows: same committed and pending rows of every other customer and the
same credential store. -/
def StateSim (cid : Nat) (stA stB : DbState) : Prop :=
  custFilter cid stA.committed = custFilter cid stB.committed ∧
  custFilter cid stA.pending = custFilter cid stB.pending ∧
  stA.credsDB = stB.credsDB

/-- `custFilter` distributes over append. -/
theorem custFilter_append (cid : Nat) (a b : List Row) :
    custFilter cid (a ++ b) = custFilter cid a ++ custFilter cid b :=
  List.filter_append _ _

/-- For a key owned by a different customer, presence is decided by the
other-customers view alone. -/
theorem hasKey_custFilter (cid : Nat) (rows : List Row)
    (k : Nat × Nat × Option String) (h : k.2.1 ≠ cid) :
    hasKey (custFilter cid rows) k = hasKey rows k := by
  cases hr : hasKey rows k with
  | true =>
    obtain ⟨q, hq, hk⟩ := List.any_eq_true.mp hr
    have hkq : rowKey q = k := of_decide_eq_true hk
    have hcid : q.customer_id ≠ cid := by
      have hq2 : q.customer_id = k.2.1 := by rw [← hkq]; rfl
      rw [hq2]; exact h
    unfold hasKey
    rw [List.any_eq_true]
    refine ⟨q, ?_, hk⟩
    unfold custFilter
    rw [List.mem_filter]
    exact ⟨hq, bne_iff_ne.mpr hcid⟩
  | false =>
    cases hf : hasKey (custFilter cid rows) k with
    | false => rfl
    | true =>
      exfalso
      have hmono := @hasKey_mono (custFilter cid rows) rows k
        (fun q hq => List.mem_of_mem_filter hq) hf
      rw [hr] at hmono
      cases hmono

/-- One-step unfolding of the insert loop when the row build raises. -/
theorem insert_loop_cons_bad (ce : CustomerEnv) (committed : List Row)
    (tenant_id cid : Nat) (txn : RemoteTxn) (rest : List RemoteTxn)
    (i : Nat) (P : List Row) (k : Nat) (e : PyExn)
    (hrec : insert_transaction_record (ce.uuids i) ce.now txn tenant_id cid =
      Except.error e) :
    insert_loop ce committed tenant_id cid (txn :: rest) i P k = (P, k, some e) := by
  conv_lhs => unfold insert_loop
  simp only [hrec]

/-- One-step unfolding of the insert loop when the engine reports an error
(1062 or not, the transaction is skipped without counting). -/
theorem insert_loop_cons_err (ce : CustomerEnv) (committed : List Row)
    (tenant_id cid : Nat) (txn : RemoteTxn) (rest : List RemoteTxn)
    (i : Nat) (P : List Row) (k : Nat) (r : Row) (errno : Nat)
    (hrec : insert_transaction_record (ce.uuids i) ce.now txn tenant_id cid =
      Except.ok r)
    (hdb : ce.dbFail i = DbOutcome.err errno) :
    insert_loop ce committed tenant_id cid (txn :: rest) i P k =
      insert_loop ce committed tenant_id cid rest (i + 1) P k := by
  conv_lhs => unfold insert_loop
  simp only [hrec, hdb]
  by_cases h62 : errno = 1062
  · rw [if_pos h62]
  · rw [if_neg h62]

/-- One-step unfolding of the insert loop when the execute succeeds. -/
theorem insert_loop_cons_ok (ce : CustomerEnv) (committed : List Row)
    (tenant_id cid : Nat) (txn : RemoteTxn) (rest : List RemoteTxn)
    (i : Nat) (P : List Row) (k : Nat) (r : Row)
    (hrec : insert_transaction_record (ce.uuids i) ce.now txn tenant_id cid =
      Except.ok r)
    (hdb : ce.dbFail i = DbOutcome.ok) :
    insert_loop ce committed tenant_id cid (txn :: rest) i P k =
      insert_loop ce committed tenant_id cid rest (i + 1)
        (if hasKey (committed ++ P) (rowKey r) = true then P else P ++ [r])
        (k + 1) := by
  conv_lhs => unfold insert_loop
  simp only [hrec, hdb]

/-- Every row the insert loop appends belongs to the loop's own customer, so
the other-customers view of the pending rows never changes. -/
theorem insert_loop_pending_custFilter (ce : CustomerEnv) (committed : List Row)
    (tenant_id cid : Nat) :
    ∀ (txns : List RemoteTxn) (i : Nat) (P : List Row) (k : Nat),
      custFilter cid (insert_loop ce committed tenant_id cid txns i P k).1 =
        custFilter cid P := by
  intro txns
  induction txns with
  | nil => intro i P k; rfl
  | cons txn rest ih =>
    intro i P k
    cases hrec : insert_transaction_record (ce.uuids i) ce.now txn tenant_id cid with
    | error e =>
      rw [insert_loop_cons_bad ce committed tenant_id cid txn rest i P k e hrec]
    | ok r =>
      cases hdb : ce.dbFail i with
      | err errno =>
        rw [insert_loop_cons_err ce committed tenant_id cid txn rest i P k r
          errno hrec hdb]
        exact ih (i + 1) P k
      | ok =>
        rw [insert_loop_cons_ok ce committed tenant_id cid txn rest i P k r
          hrec hdb]
        rw [ih (i + 1)
          (if hasKey (committed ++ P) (rowKey r) = true then P else P ++ [r])
          (k + 1)]
        by_cases hdup : hasKey (committed ++ P) (rowKey r) = true
        · rw [if_pos hdup]
        · rw [if_neg hdup]
          have hcid : r.customer_id = cid := by
            have hk := rowKey_insert_record hrec
            calc r.customer_id = (rowKey r).2.1 := rfl
            _ = cid := by rw [hk]
          unfold custFilter
          rw [List.filter_append]
          simp [hcid]

/-- If some fetched transaction's date fails to parse, the insert loop always
aborts with an exception (the first failing build is reached regardless of
duplicate or engine outcomes, which skip but never stop the loop). -/
theorem insert_loop_err_of_bad_date (ce : CustomerEnv) (committed : List Row)
    (tenant_id cid : Nat) :
    ∀ (txns : List RemoteTxn) (i : Nat) (P : List Row) (k : Nat),
      (∃ txn ∈ txns, ∃ e, parse_xero_date txn.DateString = Except.error e) →
      (insert_loop ce committed tenant_id cid txns i P k).2.2 ≠ none := by
  intro txns
  induction txns with
  | nil =>
    intro i P k hbad
    obtain ⟨txn, hmem, -⟩ := hbad
    cases hmem
  | cons txn rest ih =>
    intro i P k hbad
    cases hrec : insert_transaction_record (ce.uuids i) ce.now txn tenant_id cid with
    | error e =>
      rw [insert_loop_cons_bad ce committed tenant_id cid txn rest i P k e hrec]
      simp
    | ok r =>
      have hbad2 : ∃ t2 ∈ rest, ∃ e,
          parse_xero_date t2.DateString = Except.error e := by
        obtain ⟨t2, hmem, e, he⟩ := hbad
        rcases List.mem_cons.mp hmem with rfl | hmem2
        · obtain ⟨d, hp⟩ := parse_ok_of_insert_ok hrec
          rw [hp] at he
          cases he
        · exact ⟨t2, hmem2, e, he⟩
      cases hdb : ce.dbFail i with
      | err errno =>
        rw [insert_loop_cons_err ce committed tenant_id cid txn rest i P k r
          errno hrec hdb]
        exact ih (i + 1) P k hbad2
      | ok =>
        rw [insert_loop_cons_ok ce committed tenant_id cid txn rest i P k r
          hrec hdb]
        exact ih (i + 1)
          (if hasKey (committed ++ P) (rowKey r) = true then P else P ++ [r])
          (k + 1) hbad2

/-- A customer cycle that fails anywhere before its commit: an early failure
(credential parse, token exchange, connection resolution, remote fetch), or
an unexpected error inside the persistence loop — in this program the
`ValueError` escaping `parse_xero_date` for a fetched transaction. -/
def Fails (ce : CustomerEnv) (c : Customer) : Prop :=
  EarlyFail ce c ∨
  (∃ txns, ce.fetch = Except.ok txns ∧
    ∃ txn ∈ txns, ∃ e, parse_xero_date txn.DateString = Except.error e)

/-- A failing customer cycle never commits, never touches the credential
store, adds nothing to the inserted count, and leaves every other customer's
pending rows untouched (its own aborted inserts may stay pending on the
shared connection). -/
theorem process_customer_fails {ce : CustomerEnv} {c : Customer}
    (h : Fails ce c) (tenant_id : Nat) (st : DbState) :
    (process_customer ce tenant_id c st).1.committed = st.committed ∧
    (process_customer ce tenant_id c st).1.credsDB = st.credsDB ∧
    custFilter c.customer_id (process_customer ce tenant_id c st).1.pending =
      custFilter c.customer_id st.pending ∧
    (process_customer ce tenant_id c st).2.2 = 0 := by
  rcases h with he | ⟨txns, hf, hbad⟩
  · have hst := process_customer_early_fail he tenant_id st
    exact ⟨by rw [hst.1], by rw [hst.1], by rw [hst.1], hst.2⟩
  · rcases hloop : insert_loop ce st.committed tenant_id c.customer_id
      txns 0 st.pending 0 with ⟨p2, k2, err⟩
    cases hc : c.api_credentials with
    | error e2 =>
      have hpc : process_customer ce tenant_id c st =
          (st, [Event.customerFailed c.customer_id e2], 0) := by
        simp only [process_customer, hc]
      rw [hpc]
      exact ⟨rfl, rfl, rfl, rfl⟩
    | ok creds =>
      cases ht : ce.token with
      | error e2 =>
        have hpc : process_customer ce tenant_id c st =
            (st, [Event.customerFailed c.customer_id e2], 0) := by
          simp only [process_customer, hc, ht]
        rw [hpc]
        exact ⟨rfl, rfl, rfl, rfl⟩
      | ok pr =>
        obtain ⟨a, b⟩ := pr
        cases hr : ce.tenantResolve with
        | error e2 =>
          have hpc : process_customer ce tenant_id c st =
              (st, [Event.customerFailed c.customer_id e2], 0) := by
            simp only [process_customer, hc, ht, hr]
          rw [hpc]
          exact ⟨rfl, rfl, rfl, rfl⟩
        | ok xid =>
          cases err with
          | none =>
            exfalso
            have herr := insert_loop_err_of_bad_date ce st.committed tenant_id
              c.customer_id txns 0 st.pending 0 hbad
            rw [hloop] at herr
            exact herr rfl
          | some e =>
            have hpc : process_customer ce tenant_id c st =
                ({ st with pending := p2 },
                 [Event.customerFailed c.customer_id e], 0) := by
              simp only [process_customer, hc, ht, hr, hf, hloop]
            rw [hpc]
            refine ⟨rfl, rfl, ?_, rfl⟩
            have hpf := insert_loop_pending_custFilter ce st.committed tenant_id
              c.customer_id txns 0 st.pending 0
            rw [hloop] at hpf
            exact hpf

/-- The insert loop of a customer distinct from `cid0` behaves identically on
two stores that agree outside customer `cid0`'s rows: same count, same
error outcome, and pending rows that still agree outside `cid0`. -/
theorem insert_loop_sim (ce : CustomerEnv) (cid0 tenant_id dcid : Nat)
    (hne : dcid ≠ cid0) :
    ∀ (txns : List RemoteTxn) (i : Nat) (cA cB pA pB : List Row) (k : Nat),
      custFilter cid0 cA = custFilter cid0 cB →
      custFilter cid0 pA = custFilter cid0 pB →
      custFilter cid0 (insert_loop ce cA tenant_id dcid txns i pA k).1 =
        custFilter cid0 (insert_loop ce cB tenant_id dcid txns i pB k).1 ∧
      (insert_loop ce cA tenant_id dcid txns i pA k).2 =
        (insert_loop ce cB tenant_id dcid txns i pB k).2 := by
  intro txns
  induction txns with
  | nil => intro i cA cB pA pB k hcc hpp; exact ⟨hpp, rfl⟩
  | cons txn rest ih =>
    intro i cA cB pA pB k hcc hpp
    cases hrec : insert_transaction_record (ce.uuids i) ce.now txn tenant_id dcid with
    | error e =>
      rw [insert_loop_cons_bad ce cA tenant_id dcid txn rest i pA k e hrec,
          insert_loop_cons_bad ce cB tenant_id dcid txn rest i pB k e hrec]
      exact ⟨hpp, rfl⟩
    | ok r =>
      cases hdb : ce.dbFail i with
      | err errno =>
        rw [insert_loop_cons_err ce cA tenant_id dcid txn rest i pA k r errno
            hrec hdb,
          insert_loop_cons_err ce cB tenant_id dcid txn rest i pB k r errno
            hrec hdb]
        exact ih (i + 1) cA cB pA pB k hcc hpp
      | ok =>
        have hkcid : (rowKey r).2.1 ≠ cid0 := by
          rw [rowKey_insert_record hrec]
          exact hne
        have hcond : hasKey (cA ++ pA) (rowKey r) = hasKey (cB ++ pB) (rowKey r) := by
          rw [← hasKey_custFilter cid0 (cA ++ pA) (rowKey r) hkcid,
              ← hasKey_custFilter cid0 (cB ++ pB) (rowKey r) hkcid,
              custFilter_append, custFilter_append, hcc, hpp]
        rw [insert_loop_cons_ok ce cA tenant_id dcid txn rest i pA k r hrec hdb,
            insert_loop_cons_ok ce cB tenant_id dcid txn rest i pB k r hrec hdb]
        by_cases hdup : hasKey (cA ++ pA) (rowKey r) = true
        · have hdupB : hasKey (cB ++ pB) (rowKey r) = true := by
            rw [← hcond]; exact hdup
          rw [if_pos hdup, if_pos hdupB]
          exact ih (i + 1) cA cB pA pB (k + 1) hcc hpp
        · have hdupB : ¬hasKey (cB ++ pB) (rowKey r) = true := by
            rw [← hcond]; exact hdup
          rw [if_neg hdup, if_neg hdupB]
          refine ih (i + 1) cA cB (pA ++ [r]) (pB ++ [r]) (k + 1) hcc ?_
          rw [custFilter_append, custFilter_append, hpp]

/-- A whole customer cycle of a customer distinct from `cid0` preserves
agreement outside `cid0`: same contribution to the count, and output states
that still agree on other customers' rows and on the credential store. -/
theorem process_customer_sim (ce : CustomerEnv) (tenant_id cid0 : Nat)
    (d : Customer) (hne : d.customer_id ≠ cid0) (stA stB : DbState)
    (hsim : StateSim cid0 stA stB) :
    StateSim cid0 (process_customer ce tenant_id d stA).1
      (process_customer ce tenant_id d stB).1 ∧
    (process_customer ce tenant_id d stA).2.2 =
      (process_customer ce tenant_id d stB).2.2 := by
  obtain ⟨hcc, hpp, hcr⟩ := hsim
  cases hc : d.api_credentials with
  | error e =>
    have hA : process_customer ce tenant_id d stA =
        (stA, [Event.customerFailed d.customer_id e], 0) := by
      simp only [process_customer, hc]
    have hB : process_customer ce tenant_id d stB =
        (stB, [Event.customerFailed d.customer_id e], 0) := by
      simp only [process_customer, hc]
    rw [hA, hB]
    exact ⟨⟨hcc, hpp, hcr⟩, rfl⟩
  | ok creds =>
    cases ht : ce.token with
    | error e =>
      have hA : process_customer ce tenant_id d stA =
          (stA, [Event.customerFailed d.customer_id e], 0) := by
        simp only [process_customer, hc, ht]
      have hB : process_customer ce tenant_id d stB =
          (stB, [Event.customerFailed d.customer_id e], 0) := by
        simp only [process_customer, hc, ht]
      rw [hA, hB]
      exact ⟨⟨hcc, hpp, hcr⟩, rfl⟩
    | ok pr =>
      obtain ⟨a, b⟩ := pr
      cases hr : ce.tenantResolve with
      | error e =>
        have hA : process_customer ce tenant_id d stA =
            (stA, [Event.customerFailed d.customer_id e], 0) := by
          simp only [process_customer, hc, ht, hr]
        have hB : process_customer ce tenant_id d stB =
            (stB, [Event.customerFailed d.customer_id e], 0) := by
          simp only [process_customer, hc, ht, hr]
        rw [hA, hB]
        exact ⟨⟨hcc, hpp, hcr⟩, rfl⟩
      | ok xid =>
        cases hf : ce.fetch with
        | error e =>
          have hA : process_customer ce tenant_id d stA =
              (stA, [Event.customerFailed d.customer_id e], 0) := by
            simp only [process_customer, hc, ht, hr, hf]
          have hB : process_customer ce tenant_id d stB =
              (stB, [Event.customerFailed d.customer_id e], 0) := by
            simp only [process_customer, hc, ht, hr, hf]
          rw [hA, hB]
          exact ⟨⟨hcc, hpp, hcr⟩, rfl⟩
        | ok txns =>
          obtain ⟨hsim1, hsim2⟩ := insert_loop_sim ce cid0 tenant_id
            d.customer_id hne txns 0 stA.committed stB.committed
            stA.pending stB.pending 0 hcc hpp
          rcases hlA : insert_loop ce stA.committed tenant_id d.customer_id
            txns 0 stA.pending 0 with ⟨pA2, kA, errA⟩
          rcases hlB : insert_loop ce stB.committed tenant_id d.customer_id
            txns 0 stB.pending 0 with ⟨pB2, kB, errB⟩
          rw [hlA, hlB] at hsim1 hsim2
          simp only [Prod.mk.injEq] at hsim2
          obtain ⟨rfl, rfl⟩ := hsim2
          cases errA with
          | some e =>
            have hA : process_customer ce tenant_id d stA =
                ({ stA with pending := pA2 },
                 [Event.customerFailed d.customer_id e], 0) := by
              simp only [process_customer, hc, ht, hr, hf, hlA]
            have hB : process_customer ce tenant_id d stB =
                ({ stB with pending := pB2 },
                 [Event.customerFailed d.customer_id e], 0) := by
              simp only [process_customer, hc, ht, hr, hf, hlB]
            rw [hA, hB]
            exact ⟨⟨hcc, hsim1, hcr⟩, rfl⟩
          | none =>
            have hcomm2 : custFilter cid0 (stA.committed ++ pA2) =
                custFilter cid0 (stB.committed ++ pB2) := by
              rw [custFilter_append, custFilter_append, hcc, hsim1]
            by_cases hsame : creds.refresh_token = b
            · have hA : process_customer ce tenant_id d stA =
                  ({ stA with committed := stA.committed ++ pA2, pending := [] },
                   [Event.commit d.customer_id,
                    Event.customerDone d.customer_id kA], kA) := by
                simp only [process_customer, hc, ht, hr, hf, hlA, if_pos hsame]
              have hB : process_customer ce tenant_id d stB =
                  ({ stB with committed := stB.committed ++ pB2, pending := [] },
                   [Event.commit d.customer_id,
                    Event.customerDone d.customer_id kA], kA) := by
                simp only [process_customer, hc, ht, hr, hf, hlB, if_pos hsame]
              rw [hA, hB]
              exact ⟨⟨hcomm2, rfl, hcr⟩, rfl⟩
            · cases ho : ce.updateOutcome with
              | ok u =>
                have hA : process_customer ce tenant_id d stA =
                    ({ committed := stA.committed ++ pA2, pending := [],
                       credsDB := (update_refresh_token_in_db stA.credsDB
                         d.customer_id b) },
                     [Event.commit d.customer_id,
                      Event.customerDone d.customer_id kA,
                      Event.tokenUpdate d.customer_id b], kA) := by
                  simp only [process_customer, hc, ht, hr, hf, hlA,
                    if_neg hsame, ho]
                have hB : process_customer ce tenant_id d stB =
                    ({ committed := stB.committed ++ pB2, pending := [],
                       credsDB := (update_refresh_token_in_db stB.credsDB
                         d.customer_id b) },
                     [Event.commit d.customer_id,
                      Event.customerDone d.customer_id kA,
                      Event.tokenUpdate d.customer_id b], kA) := by
                  simp only [process_customer, hc, ht, hr, hf, hlB,
                    if_neg hsame, ho]
                rw [hA, hB]
                refine ⟨⟨hcomm2, rfl, ?_⟩, rfl⟩
                rw [hcr]
              | error e =>
                have hA : process_customer ce tenant_id d stA =
                    ({ stA with committed := stA.committed ++ pA2, pending := [] },
                     [Event.commit d.customer_id,
                      Event.customerDone d.customer_id kA,
                      Event.customerFailed d.customer_id e], kA) := by
                  simp only [process_customer, hc, ht, hr, hf, hlA,
                    if_neg hsame, ho]
                have hB : process_customer ce tenant_id d stB =
                    ({ stB with committed := stB.committed ++ pB2, pending := [] },
                     [Event.commit d.customer_id,
                      Event.customerDone d.customer_id kA,
                      Event.customerFailed d.customer_id e], kA) := by
                  simp only [process_customer, hc, ht, hr, hf, hlB,
                    if_neg hsame, ho]
                rw [hA, hB]
                exact ⟨⟨hcomm2, rfl, hcr⟩, rfl⟩

/-- The customer fold preserves agreement outside `cid0` when every processed
customer is distinct from `cid0`, and yields the same total count. -/
theorem process_customers_sim (env : Customer → CustomerEnv)
    (tenant_id cid0 : Nat) :
    ∀ (cs : List Customer), (∀ d ∈ cs, d.customer_id ≠ cid0) →
      ∀ (stA stB : DbState), StateSim cid0 stA stB →
      StateSim cid0 (process_customers env tenant_id cs stA).1
        (process_customers env tenant_id cs stB).1 ∧
      (process_customers env tenant_id cs stA).2.2 =
        (process_customers env tenant_id cs stB).2.2 := by
  intro cs
  induction cs with
  | nil => intro _ stA stB hsim; exact ⟨hsim, rfl⟩
  | cons d rest ih =>
    intro hd stA stB hsim
    obtain ⟨hs1, hs2⟩ := process_customer_sim (env d) tenant_id cid0 d
      (hd d (List.mem_cons_self _ _)) stA stB hsim
    obtain ⟨hr1, hr2⟩ := ih (fun x hx => hd x (List.mem_cons_of_mem _ hx))
      (process_customer (env d) tenant_id d stA).1
      (process_customer (env d) tenant_id d stB).1 hs1
    constructor
    · exact hr1
    · show (process_customer (env d) tenant_id d stA).2.2 +
          (process_customers env tenant_id rest
            (process_customer (env d) tenant_id d stA).1).2.2 =
        (process_customer (env d) tenant_id d stB).2.2 +
          (process_customers env tenant_id rest
            (process_customer (env d) tenant_id d stB).1).2.2
      rw [hs2, hr2]

/-- C5: a failure in one customer's pipeline — credential parse, token
exchange, connection resolution, remote fetch, or an unexpected error inside
the persistence loop (the date `ValueError`) — aborts only that customer:
with the tenant's customer ids distinct, the run over the full list and the
run with the failing customer removed agree on every other customer's
committed and pending rows, on the credential store, and on the total
inserted count, so every subsequent customer is fully processed and its
transactions persisted.  (Full state equality cannot be asserted: a mid-loop
failure may leave the failed customer's own rows pending on the shared
connection, to be committed by the next customer's commit.) -/
theorem customer_failure_isolated (env : Customer → CustomerEnv)
    (tenant_id : Nat) (cs1 cs2 : List Customer) (c : Customer) (st : DbState)
    (h : Fails (env c) c)
    (hdist : ∀ d ∈ cs2, d.customer_id ≠ c.customer_id) :
    custFilter c.customer_id
        (process_customers env tenant_id (cs1 ++ c :: cs2) st).1.committed =
      custFilter c.customer_id
        (process_customers env tenant_id (cs1 ++ cs2) st).1.committed ∧
    custFilter c.customer_id
        (process_customers env tenant_id (cs1 ++ c :: cs2) st).1.pending =
      custFilter c.customer_id
        (process_customers env tenant_id (cs1 ++ cs2) st).1.pending ∧
    (process_customers env tenant_id (cs1 ++ c :: cs2) st).1.credsDB =
      (process_customers env tenant_id (cs1 ++ cs2) st).1.credsDB ∧
    (process_customers env tenant_id (cs1 ++ c :: cs2) st).2.2 =
      (process_customers env tenant_id (cs1 ++ cs2) st).2.2 := by
  induction cs1 generalizing st with
  | nil =>
    have hfc := process_customer_fails h tenant_id st
    have hsim0 : StateSim c.customer_id
        (process_customer (env c) tenant_id c st).1 st :=
      ⟨by rw [hfc.1], hfc.2.2.1, hfc.2.1⟩
    obtain ⟨hr1, hr2⟩ := process_customers_sim env tenant_id c.customer_id cs2
      hdist (process_customer (env c) tenant_id c st).1 st hsim0
    obtain ⟨ha, hb, hcr⟩ := hr1
    refine ⟨ha, hb, hcr, ?_⟩
    show (process_customer (env c) tenant_id c st).2.2 +
        (process_customers env tenant_id cs2
          (process_customer (env c) tenant_id c st).1).2.2 = _
    rw [hfc.2.2.2, Nat.zero_add, hr2]
    rfl
  | cons a as ih =>
    have iha := ih (process_customer (env a) tenant_id a st).1
    refine ⟨iha.1, iha.2.1, iha.2.2.1, ?_⟩
    show (process_customer (env a) tenant_id a st).2.2 +
        (process_customers env tenant_id (as ++ c :: cs2)
          (process_customer (env a) tenant_id a st).1).2.2 =
      (process_customer (env a) tenant_id a st).2.2 +
        (process_customers env tenant_id (as ++ cs2)
          (process_customer (env a) tenant_id a st).1).2.2
    rw [iha.2.2.2]

/-- C5 witness: customer 1's persistence loop raises the date `ValueError`
mid-cycle (the claim's "unexpected error"), and customer 2 in the same tenant
list is processed exactly as if customer 1 were absent: same committed rows,
pending rows, credential store and total count outside customer 1. -/
theorem customer_failure_isolated_witness :
    custFilter custA.customer_id
        (process_customers envBadDateFor1 1 ([] ++ custA :: [custB]) st0).1.committed =
      custFilter custA.customer_id
        (process_customers envBadDateFor1 1 ([] ++ [custB]) st0).1.committed ∧
    custFilter custA.customer_id
        (process_customers envBadDateFor1 1 ([] ++ custA :: [custB]) st0).1.pending =
      custFilter custA.customer_id
        (process_customers envBadDateFor1 1 ([] ++ [custB]) st0).1.pending ∧
    (process_customers envBadDateFor1 1 ([] ++ custA :: [custB]) st0).1.credsDB =
      (process_customers envBadDateFor1 1 ([] ++ [custB]) st0).1.credsDB ∧
    (process_customers envBadDateFor1 1 ([] ++ custA :: [custB]) st0).2.2 =
      (process_customers envBadDateFor1 1 ([] ++ [custB]) st0).2.2 :=
  customer_failure_isolated envBadDateFor1 1 [] [custB] custA st0
    (Or.inr ⟨[txnBadDate], rfl, txnBadDate, List.mem_singleton.mpr rfl,
      PyExn.valueError, by decide⟩)
    (by decide)

/-- C6: after a successful customer cycle, the stored credential is written
back if and only if the returned refresh token differs from the one read from
storage; when equal no credential write occurs; and the write-back comes
after the commit of the customer's inserts (`Event.commit` precedes
`Event.tokenUpdate` in the cycle's event list), so a failing write-back
leaves the committed rows in place. -/
theorem refresh_token_writeback (ce : CustomerEnv) (tenant_id : Nat)
    (c : Customer) (st : DbState) (creds : Creds)
    (access_token new_refresh_token xid : String) (txns : List RemoteTxn)
    (P : List Row) (n : Nat)
    (hc : c.api_credentials = Except.ok creds)
    (ht : ce.token = Except.ok (access_token, new_refresh_token))
    (hr : ce.tenantResolve = Except.ok xid)
    (hf : ce.fetch = Except.ok txns)
    (hl : insert_loop ce st.committed tenant_id c.customer_id txns 0 st.pending 0 =
      (P, n, none)) :
    (creds.refresh_token = new_refresh_token →
      process_customer ce tenant_id c st =
        ({ st with committed := st.committed ++ P, pending := [] },
         [Event.commit c.customer_id, Event.customerDone c.customer_id n], n)) ∧
    (creds.refresh_token ≠ new_refresh_token → ce.updateOutcome = Except.ok () →
      process_customer ce tenant_id c st =
        ({ committed := st.committed ++ P, pending := [],
           credsDB := (update_refresh_token_in_db st.credsDB c.customer_id
             new_refresh_token) },
         [Event.commit c.customer_id, Event.customerDone c.customer_id n,
          Event.tokenUpdate c.customer_id new_refresh_token], n)) ∧
    (∀ e, creds.refresh_token ≠ new_refresh_token →
      ce.updateOutcome = Except.error e →
      process_customer ce tenant_id c st =
        ({ st with committed := st.committed ++ P, pending := [] },
         [Event.commit c.customer_id, Event.customerDone c.customer_id n,
          Event.customerFailed c.customer_id e], n)) := by
  refine ⟨?_, ?_, ?_⟩
  · intro hsame
    simp only [process_customer, hc, ht, hr, hf, hl, if_pos hsame]
  · intro hne ho
    simp only [process_customer, hc, ht, hr, hf, hl, if_neg hne, ho]
  · intro e hne ho
    simp only [process_customer, hc, ht, hr, hf, hl, if_neg hne, ho]

/-- C6 witness: a cycle whose token exchange rotates the refresh token
(`rtA` → `rtA2`) commits first and then writes the credential back. -/
theorem refresh_token_writeback_witness :
    process_customer ceRotate 1 custA st0 =
      ({ committed := st0.committed ++ [], pending := [],
         credsDB := (update_refresh_token_in_db st0.credsDB custA.customer_id
           ("rtA2")) },
       [Event.commit custA.customer_id, Event.customerDone custA.customer_id 0,
        Event.tokenUpdate custA.customer_id ("rtA2")], 0) :=
  (refresh_token_writeback ceRotate 1 custA st0 credsA ("acc") ("rtA2") ("xid")
    [] [] 0 rfl rfl rfl rfl rfl).2.1 (by decide) rfl

/-- C8: the orchestrator joins every tenant task — the result list always has
one slot per tenant — and a tenant task that completes with result `r` is
reported as `some r` regardless of what any other tenant's task does (the
slot depends only on that tenant's own job); a task that raises is caught at
the thread boundary and reported as `none`, not as a crash. -/
theorem tenant_isolation (jobs : List TenantJob) (i : Nat) (j : TenantJob)
    (r : DbState × List Event × Nat)
    (hj : jobs[i]? = some j)
    (hok : process_tenant_transactions j = Except.ok r) :
    (main jobs).length = jobs.length ∧ (main jobs)[i]? = some (some r) := by
  refine ⟨List.length_map _ _, ?_⟩
  unfold main
  rw [List.getElem?_map, hj]
  simp [threadBoundary, hok]

/-- A tenant job whose sync completes (no customers to process). -/
def jobGood : TenantJob :=
  { tenant_id := 1, customersResult := Except.ok [],
    connectResult := Except.ok (), env := fun _ => ceOk, st := st0 }

/-- A tenant job whose coordinator raises while loading its customers. -/
def jobBad : TenantJob :=
  { jobGood with
    tenant_id := 2,
    customersResult := Except.error (PyExn.dbError 2006) }

/-- C8 witness: tenant 1 completes and reports its result even though
tenant 2's coordinator raises an unhandled database error. -/
theorem tenant_isolation_witness :
    (main [jobGood, jobBad]).length = [jobGood, jobBad].length ∧
    (main [jobGood, jobBad])[0]? = some (some (st0, [], 0)) :=
  tenant_isolation [jobGood, jobBad] 0 jobGood (st0, [], 0) rfl rfl

/-- C10: the row handed to the INSERT carries `currency_code = 'AUD'` when the
fetched transaction has no `CurrencyCode` field, and the provider's value
unchanged when it is present. -/
theorem currency_code_default (newId created_at : String) (txn : RemoteTxn)
    (tenant_id customer_id : Nat) (r : Row)
    (h : insert_transaction_record newId created_at txn tenant_id customer_id =
      Except.ok r) :
    (txn.CurrencyCode = none → r.currency_code = ("AUD")) ∧
    (∀ s, txn.CurrencyCode = some s → r.currency_code = s) := by
  unfold insert_transaction_record at h
  cases hp : parse_xero_date txn.DateString with
  | error e => rw [hp] at h; cases h
  | ok d =>
    rw [hp] at h
    injection h with h
    subst h
    constructor
    · intro hc; simp [hc]
    · intro s hc; simp [hc]

/-- C10 witness: `txnSpend150` has no `CurrencyCode`, and the row built for it
carries the constant `'AUD'`. -/
theorem currency_code_default_witness : rowSpend150.currency_code = ("AUD") :=
  (currency_code_default ("u1") ("t0") txnSpend150 1 2 rowSpend150 (by decide)).1
    rfl

end SyncBank
